import Mathlib

/-!
Verification development for the `math_lib` Rust crate, module `vector_3d`
(files `src/vector_3d.rs`, `src/vector_3d/ops.rs`, `src/vector_3d/iterator.rs`).

Shallow embedding conventions:
* `Vector3d<T>` becomes `Vector3d α`.  All claims instantiate the element
  type `T` at `f32`; for the exact-arithmetic algebraic claims the `f32`
  scalars are idealised as elements of a field (concretely `ℚ`), while the
  claim about NaN behaviour uses the `F32` model below, which carries the
  IEEE-754 special values (NaN, signed infinities) over exact rational
  finite values.
* `Float::to_f32` and `T::from(f32)` are the identity / `Some`-identity at
  `T = f32` (per `num_traits`), so the `.unwrap()` calls on them never
  panic and are dropped from the embedding of `magnitude`, `dot`,
  `unit_vector`.
* Machine integers (`u8` cursor fields) are `Nat` with explicit `% 256`
  wrap-around where the source decrements below zero (release-profile
  two's-complement wrapping semantics).
* A Rust `panic!` is the `PanicOr.panicked` constructor.
-/

/-- Embedding of `struct Vector3d<T> { pub i: T, pub j: T, pub k: T }`
from `src/vector_3d.rs` lines 31-36. -/
structure Vector3d (α : Type) where
  i : α
  j : α
  k : α
  deriving DecidableEq, Repr

/-- Embedding of `impl Add for Vector3d` (`src/vector_3d/ops.rs` lines 5-15):
componentwise sum producing a new value. -/
def Vector3d.add {α : Type} [Add α] (s rhs : Vector3d α) : Vector3d α :=
  ⟨s.i + rhs.i, s.j + rhs.j, s.k + rhs.k⟩

/-- Embedding of `impl AddAssign for Vector3d` (`src/vector_3d/ops.rs` lines
17-25): the source executes `*self = Vector3d { i: self.i + rhs.i, .. }`;
the embedding returns the value assigned to `self`. -/
def Vector3d.add_assign {α : Type} [Add α] (s rhs : Vector3d α) : Vector3d α :=
  ⟨s.i + rhs.i, s.j + rhs.j, s.k + rhs.k⟩

/-- Embedding of `impl Sub for Vector3d` (`src/vector_3d/ops.rs` lines 27-37). -/
def Vector3d.sub {α : Type} [Sub α] (s rhs : Vector3d α) : Vector3d α :=
  ⟨s.i - rhs.i, s.j - rhs.j, s.k - rhs.k⟩

/-- Embedding of `impl SubAssign for Vector3d` (`src/vector_3d/ops.rs` lines
39-47): returns the value the source assigns to `self`. -/
def Vector3d.sub_assign {α : Type} [Sub α] (s rhs : Vector3d α) : Vector3d α :=
  ⟨s.i - rhs.i, s.j - rhs.j, s.k - rhs.k⟩

/-- Embedding of `impl Mul<T> for Vector3d` (`src/vector_3d/ops.rs` lines
49-59): scalar multiple of every component. -/
def Vector3d.mul {α : Type} [Mul α] (s : Vector3d α) (scalar : α) : Vector3d α :=
  ⟨s.i * scalar, s.j * scalar, s.k * scalar⟩

/-- Embedding of `impl MulAssign<T> for Vector3d` (`src/vector_3d/ops.rs`
lines 61-69): returns the value the source assigns to `self`. -/
def Vector3d.mul_assign {α : Type} [Mul α] (s : Vector3d α) (scalar : α) : Vector3d α :=
  ⟨s.i * scalar, s.j * scalar, s.k * scalar⟩

/-- Embedding of `Vector3d::dot` (`src/vector_3d.rs` lines 131-135):
`(self.i*other.i + self.j*other.j + self.k*other.k).to_f32().unwrap()`.
At `T = f32` the `to_f32()` conversion is the identity and its unwrap
always succeeds, so the embedding returns the sum itself. -/
def Vector3d.dot {α : Type} [Add α] [Mul α] (s other : Vector3d α) : α :=
  s.i * other.i + s.j * other.j + s.k * other.k

/-- Embedding of `Vector3d::cross` (`src/vector_3d.rs` lines 171-180),
keeping the source's three intermediate bindings and the negation of the
`j` component. -/
def Vector3d.cross {α : Type} [Mul α] [Sub α] [Neg α] (s other : Vector3d α) : Vector3d α :=
  let i_cross := s.j * other.k - other.j * s.k
  let j_cross := s.i * other.k - other.i * s.k
  let k_cross := s.i * other.j - other.i * s.j
  ⟨i_cross, -j_cross, k_cross⟩

/-- Embedding of `Vector3d::magnitude` (`src/vector_3d.rs` lines 101-106):
`(i*i + j*j + k*k).to_f32().unwrap().sqrt()`.  The primitive `f32::sqrt`
supplied by the `Float` capability set is abstracted as the parameter
`sqrtf`; `to_f32()` is the identity at `T = f32`. -/
def Vector3d.magnitude {α : Type} [Add α] [Mul α] (sqrtf : α → α) (s : Vector3d α) : α :=
  sqrtf (s.i * s.i + s.j * s.j + s.k * s.k)

/-- Embedding of `Vector3d::unit_vector` (`src/vector_3d.rs` lines 234-241):
computes `mag = self.magnitude()` once and divides each component by
`T::from(mag).unwrap()`, which at `T = f32` is `mag` itself (the unwrap
never fails).  Note the signature: the source returns a plain `Self`,
with no error channel of any kind. -/
def Vector3d.unit_vector {α : Type} [Add α] [Mul α] [Div α] (sqrtf : α → α)
    (s : Vector3d α) : Vector3d α :=
  let mag := s.magnitude sqrtf
  ⟨s.i / mag, s.j / mag, s.k / mag⟩

/-- C10: magnitude and dot compute the identical component-square sum
`i*i + j*j + k*k`; `magnitude(a)` is exactly the square-root primitive
applied to `a.dot(a)`, for every element type and every sqrt primitive. -/
theorem c10_magnitude_is_sqrt_of_self_dot {α : Type} [Add α] [Mul α]
    (sqrtf : α → α) (a : Vector3d α) :
    a.magnitude sqrtf = sqrtf (a.dot a) := rfl

/-- C7: vector addition is associative componentwise, in the exact model of
the floating element type: `(a+b)+c = a+(b+c)` for all 3-vectors. -/
theorem c7_add_associative {α : Type} [Field α] (a b c : Vector3d α) :
    (a.add b).add c = a.add (b.add c) := by
  simp [Vector3d.add, Vector3d.mk.injEq, add_assoc]

/-- C8: the cross product is anticommutative: each component of
`a.cross b` is the negation of the corresponding component of
`b.cross a`, in the exact model of the floating element type. -/
theorem c8_cross_anticommutative {α : Type} [Field α] (a b : Vector3d α) :
    a.cross b = ⟨-((b.cross a).i), -((b.cross a).j), -((b.cross a).k)⟩ := by
  simp only [Vector3d.cross, Vector3d.mk.injEq]
  refine ⟨by ring, by ring, by ring⟩

/-- C6: every in-place operator assigns exactly the value the pure operator
constructs, updating all three components: `a += b` leaves `(old a).add b`,
`a -= b` leaves `(old a).sub b`, `a *= s` leaves `(old a).mul s`, and the
result is again a 3-component vector (shape unchanged by type). -/
theorem c6_inplace_equals_pure {α : Type} [Field α] (a b : Vector3d α) (s : α) :
    a.add_assign b = a.add b ∧
    a.sub_assign b = a.sub b ∧
    a.mul_assign s = a.mul s ∧
    (a.add_assign b).i = a.i + b.i ∧
    (a.add_assign b).j = a.j + b.j ∧
    (a.add_assign b).k = a.k + b.k :=
  ⟨rfl, rfl, rfl, rfl, rfl, rfl⟩

/-- C5: the cross product follows the right-hand-rule determinant formula
`(j1*k2 - j2*k1, -(i1*k2 - i2*k1), i1*j2 - i2*j1)`, and concretely
`cross((1,2,3),(4,5,6)) = (-3,6,-3)` with `dot((1,2,3),(4,5,6)) = 32`. -/
theorem c5_cross_determinant_and_concrete {α : Type} [Field α] (a b : Vector3d α) :
    a.cross b = ⟨a.j * b.k - b.j * a.k, -(a.i * b.k - b.i * a.k), a.i * b.j - b.i * a.j⟩
    ∧ (Vector3d.mk (1 : ℚ) 2 3).cross ⟨4, 5, 6⟩ = ⟨-3, 6, -3⟩
    ∧ (Vector3d.mk (1 : ℚ) 2 3).dot ⟨4, 5, 6⟩ = 32 := by
  refine ⟨rfl, ?_, ?_⟩ <;>
    · simp only [Vector3d.cross, Vector3d.dot, Vector3d.mk.injEq]
      norm_num

/-!
Iterator model (`src/vector_3d/iterator.rs`).

All three iterator kinds (`Iter`, `IntoIter`, `IterMut`) carry the same
control state: a `u8` front cursor, a `u8` back cursor (named `end_index`
for `Iter`/`IntoIter` and `back_index` for `IterMut`) and
`size: Option<usize>`.  The element payload (a `&T`, an owned `T`, or a
`&mut T`) is determined by the logical slot 0/1/2 matched against the
cursor, so each `next`/`next_back` is embedded as a state transformer
that also reports the *slot* it yields (`none` = the call yields no
element); `Vector3d.get?` maps a slot back to the component value.
Cursor arithmetic wraps modulo 256 (release-profile `u8` semantics).
-/

/-- Logical slot yielded for a cursor value: the source matches the `u8`
cursor against `0 => i, 1 => j, 2 => k, _ => None`. -/
def slotAt : Nat → Option Nat
  | 0 => some 0
  | 1 => some 1
  | 2 => some 2
  | _ => none

/-- Component of a `Vector3d` at a logical slot (i = 0, j = 1, k = 2). -/
def Vector3d.get? {α : Type} (v : Vector3d α) : Nat → Option α
  | 0 => some v.i
  | 1 => some v.j
  | 2 => some v.k
  | _ => none

/-- Shared control state of `Iter`, `IntoIter` and `IterMut`
(`src/vector_3d/iterator.rs` lines 5-35): front cursor, back cursor and
the `Option<usize>` remaining count. -/
structure IterState where
  front_index : Nat
  end_index : Nat
  size : Option Nat
  deriving DecidableEq, Repr

/-- Fresh iterator state as built by `Vector3d::iter`, `Vector3d::iter_mut`
and all three `IntoIterator` impls: front 0, back 2, size `Some(3)`. -/
def freshIter : IterState := ⟨0, 2, some 3⟩

/-- Embedding of `Iter::next` (`src/vector_3d/iterator.rs` lines 41-63):
early return when `size` is `None`; on `checked_sub` underflow return
`None` leaving `size = Some(0)`; otherwise decrement the count, match the
front cursor to a slot and increment the cursor. -/
def Iter.next (s : IterState) : Option Nat × IterState :=
  match s.size with
  | none => (none, s)
  | some 0 => (none, s)
  | some (n + 1) =>
    (slotAt s.front_index,
     { s with size := some n, front_index := (s.front_index + 1) % 256 })

/-- Embedding of `Iter::next_back` (`src/vector_3d/iterator.rs` lines
92-116): like `next` but on `checked_sub` underflow it sets `size` to
`None` before returning; a successful call decrements the back cursor
(`self.end_index -= 1`, wrapping at 0). -/
def Iter.next_back (s : IterState) : Option Nat × IterState :=
  match s.size with
  | none => (none, s)
  | some 0 => (none, { s with size := none })
  | some (n + 1) =>
    (slotAt s.end_index,
     { s with size := some n, end_index := (s.end_index + 255) % 256 })

/-- Embedding of `IntoIter::next` (`src/vector_3d/iterator.rs` lines
124-146): identical control flow to `Iter::next` except that the
underflow branch also sets `size` to `None` before returning. -/
def IntoIter.next (s : IterState) : Option Nat × IterState :=
  match s.size with
  | none => (none, s)
  | some 0 => (none, { s with size := none })
  | some (n + 1) =>
    (slotAt s.front_index,
     { s with size := some n, front_index := (s.front_index + 1) % 256 })

/-- Embedding of `IntoIter::next_back` (`src/vector_3d/iterator.rs` lines
176-198): same control flow as `Iter::next_back`. -/
def IntoIter.next_back (s : IterState) : Option Nat × IterState :=
  match s.size with
  | none => (none, s)
  | some 0 => (none, { s with size := none })
  | some (n + 1) =>
    (slotAt s.end_index,
     { s with size := some n, end_index := (s.end_index + 255) % 256 })

/-- Embedding of `IterMut::next` (`src/vector_3d/iterator.rs` lines
206-228).  The `checked_sub` underflow branch sets `size = None` with the
comment `// early return` but contains NO `return` statement, so control
falls through to the cursor match and the function can still yield an
element there; the cursor is incremented unconditionally. -/
def IterMut.next (s : IterState) : Option Nat × IterState :=
  match s.size with
  | none => (none, s)
  | some 0 =>
    (slotAt s.front_index,
     { s with size := none, front_index := (s.front_index + 1) % 256 })
  | some (n + 1) =>
    (slotAt s.front_index,
     { s with size := some n, front_index := (s.front_index + 1) % 256 })

/-- Embedding of `IterMut::next_back` (`src/vector_3d/iterator.rs` lines
251-271): same missing early return as `IterMut::next`; the back cursor
(`back_index` in the source) is decremented unconditionally, wrapping. -/
def IterMut.next_back (s : IterState) : Option Nat × IterState :=
  match s.size with
  | none => (none, s)
  | some 0 =>
    (slotAt s.end_index,
     { s with size := none, end_index := (s.end_index + 255) % 256 })
  | some (n + 1) =>
    (slotAt s.end_index,
     { s with size := some n, end_index := (s.end_index + 255) % 256 })

/-- Direction of one call on a double-ended iterator. -/
inductive Dir where
  | fwd
  | back
  deriving DecidableEq, Repr

/-- Run a sequence of forward/backward calls against a step pair,
collecting the per-call yield results in order. -/
def runMixed (sf sb : IterState → Option Nat × IterState) :
    List Dir → IterState → List (Option Nat)
  | [], _ => []
  | d :: ds, s =>
    let r := match d with
      | Dir.fwd => sf s
      | Dir.back => sb s
    r.1 :: runMixed sf sb ds r.2

/-- Boolean test for the terminal region of the iterator state space: the
remaining count is `None` or `Some(0)`; in this region `Iter` and
`IntoIter` can never yield again. -/
def deadB (s : IterState) : Bool :=
  match s.size with
  | none => true
  | some 0 => true
  | some (_ + 1) => false

/-- Fusedness of an output trace: after the first call that yielded no
element, every later call also yielded no element. -/
def noSomeAfterNone : List (Option Nat) → Bool
  | [] => true
  | some _ :: rest => noSomeAfterNone rest
  | none :: rest => rest.all Option.isNone

/-- Explicit list of all iterator states reachable from `freshIter` under
any interleaving of `Iter`/`IntoIter` calls. -/
def iterReach : List IterState :=
  [⟨0, 2, some 3⟩,
   ⟨1, 2, some 2⟩, ⟨0, 1, some 2⟩,
   ⟨2, 2, some 1⟩, ⟨1, 1, some 1⟩, ⟨0, 0, some 1⟩,
   ⟨3, 2, some 0⟩, ⟨2, 1, some 0⟩, ⟨1, 0, some 0⟩, ⟨0, 255, some 0⟩,
   ⟨3, 2, none⟩, ⟨2, 1, none⟩, ⟨1, 0, none⟩, ⟨0, 255, none⟩]

/-- From a dead state inside a closed state set, every further call yields
nothing, in any interleaving of directions. -/
theorem runMixed_dead_all_none (sf sb : IterState → Option Nat × IterState)
    (L : List IterState)
    (h1 : ∀ s ∈ L, (sf s).2 ∈ L ∧ (sb s).2 ∈ L)
    (h3 : ∀ s ∈ L, deadB s = true →
      (sf s).1 = none ∧ deadB (sf s).2 = true ∧ (sb s).1 = none ∧ deadB (sb s).2 = true) :
    ∀ (ds : List Dir) (s : IterState), s ∈ L → deadB s = true →
      (runMixed sf sb ds s).all Option.isNone = true := by
  intro ds
  induction ds with
  | nil => intro s _ _; rfl
  | cons d ds ih =>
    intro s hs hd
    obtain ⟨hf1, hb1⟩ := h1 s hs
    obtain ⟨hf3, hf3d, hb3, hb3d⟩ := h3 s hs hd
    cases d with
    | fwd =>
      have hrest := ih (sf s).2 hf1 hf3d
      simp [runMixed, hf3, hrest]
    | back =>
      have hrest := ih (sb s).2 hb1 hb3d
      simp [runMixed, hb3, hrest]

/-- Fusedness by finite closure: if a state set is closed under both step
functions, a call that yields nothing always lands in the dead region,
and the dead region traps, then every trace from a state of the set is
fused. -/
theorem noSomeAfterNone_of_closed (sf sb : IterState → Option Nat × IterState)
    (L : List IterState)
    (h1 : ∀ s ∈ L, (sf s).2 ∈ L ∧ (sb s).2 ∈ L)
    (h2 : ∀ s ∈ L, ((sf s).1 = none → deadB (sf s).2 = true) ∧
      ((sb s).1 = none → deadB (sb s).2 = true))
    (h3 : ∀ s ∈ L, deadB s = true →
      (sf s).1 = none ∧ deadB (sf s).2 = true ∧ (sb s).1 = none ∧ deadB (sb s).2 = true) :
    ∀ (ds : List Dir) (s : IterState), s ∈ L →
      noSomeAfterNone (runMixed sf sb ds s) = true := by
  intro ds
  induction ds with
  | nil => intro s _; rfl
  | cons d ds ih =>
    intro s hs
    cases d with
    | fwd =>
      obtain ⟨hf1, _⟩ := h1 s hs
      cases hr : (sf s).1 with
      | some m =>
        have hrec := ih (sf s).2 hf1
        simp [runMixed, hr, noSomeAfterNone, hrec]
      | none =>
        have hdead := (h2 s hs).1 hr
        have hall := runMixed_dead_all_none sf sb L h1 h3 ds (sf s).2 hf1 hdead
        simp [runMixed, hr, noSomeAfterNone, hall]
    | back =>
      obtain ⟨_, hb1⟩ := h1 s hs
      cases hr : (sb s).1 with
      | some m =>
        have hrec := ih (sb s).2 hb1
        simp [runMixed, hr, noSomeAfterNone, hrec]
      | none =>
        have hdead := (h2 s hs).2 hr
        have hall := runMixed_dead_all_none sf sb L h1 h3 ds (sb s).2 hb1 hdead
        simp [runMixed, hr, noSomeAfterNone, hall]

/-- C9: the shared-borrow iterator `Iter` and the owning iterator
`IntoIter` are fused: in every interleaving of `next` and `next_back`
calls starting from a fresh iterator, once a call has returned no
element, every subsequent call also returns no element. -/
theorem c9_iter_intoiter_fused (ds : List Dir) :
    noSomeAfterNone (runMixed Iter.next Iter.next_back ds freshIter) = true ∧
    noSomeAfterNone (runMixed IntoIter.next IntoIter.next_back ds freshIter) = true := by
  constructor
  · exact noSomeAfterNone_of_closed Iter.next Iter.next_back iterReach
      (by decide) (by decide) (by decide) ds freshIter (by decide)
  · exact noSomeAfterNone_of_closed IntoIter.next IntoIter.next_back iterReach
      (by decide) (by decide) (by decide) ds freshIter (by decide)

/-- C3: from a fresh iterator of any of the three kinds, four forward
calls yield exactly `[i, j, k]` then exhaustion, and four backward calls
yield exactly `[k, j, i]` then exhaustion. -/
theorem c3_fresh_forward_backward {α : Type} (v : Vector3d α) :
    (runMixed Iter.next Iter.next_back [Dir.fwd, Dir.fwd, Dir.fwd, Dir.fwd] freshIter).map
        (fun o => o.bind v.get?) = [some v.i, some v.j, some v.k, none] ∧
    (runMixed Iter.next Iter.next_back [Dir.back, Dir.back, Dir.back, Dir.back] freshIter).map
        (fun o => o.bind v.get?) = [some v.k, some v.j, some v.i, none] ∧
    (runMixed IntoIter.next IntoIter.next_back [Dir.fwd, Dir.fwd, Dir.fwd, Dir.fwd] freshIter).map
        (fun o => o.bind v.get?) = [some v.i, some v.j, some v.k, none] ∧
    (runMixed IntoIter.next IntoIter.next_back [Dir.back, Dir.back, Dir.back, Dir.back] freshIter).map
        (fun o => o.bind v.get?) = [some v.k, some v.j, some v.i, none] ∧
    (runMixed IterMut.next IterMut.next_back [Dir.fwd, Dir.fwd, Dir.fwd, Dir.fwd] freshIter).map
        (fun o => o.bind v.get?) = [some v.i, some v.j, some v.k, none] ∧
    (runMixed IterMut.next IterMut.next_back [Dir.back, Dir.back, Dir.back, Dir.back] freshIter).map
        (fun o => o.bind v.get?) = [some v.k, some v.j, some v.i, none] :=
  ⟨rfl, rfl, rfl, rfl, rfl, rfl⟩

/-- C2 fails on `IterMut`: because the exhausted-count branch of
`IterMut::next` sets `size = None` but is missing its early `return`, the
call sequence `next_back, next, next, next` on a fresh mutable iterator
yields the slots `[k, i, j, k]` — four successful yields, with slot `k`
yielded twice — contradicting the claimed bound of three yields with no
slot repeated.  On the vector `(1, 2, 3)` the yielded components are
`3, 1, 2, 3`. -/
theorem c2_itermut_double_yield :
    runMixed IterMut.next IterMut.next_back [Dir.back, Dir.fwd, Dir.fwd, Dir.fwd] freshIter
      = [some 2, some 0, some 1, some 2] ∧
    (runMixed IterMut.next IterMut.next_back [Dir.back, Dir.fwd, Dir.fwd, Dir.fwd] freshIter).map
        (fun o => o.bind (Vector3d.mk (1 : ℚ) 2 3).get?)
      = [some 3, some 1, some 2, some 3] :=
  ⟨rfl, rfl⟩

/-!
Exact-rational model of IEEE-754 `f32` for the zero-vector normalisation
claim.  Finite values are exact rationals (no rounding is modelled; every
theorem below evaluates the operations only where the true `f32` result
is exact), and the special values NaN and the two signed infinities are
explicit constructors with the IEEE propagation rules.
-/

/-- Model of an `f32` value: an exact finite rational, a signed infinity
(`true` = positive), or NaN. -/
inductive F32 where
  | fin : ℚ → F32
  | inf : Bool → F32
  | nan : F32
  deriving DecidableEq, Repr

/-- IEEE-754 addition on the model: NaN propagates; opposite infinities
give NaN; finite values add exactly. -/
def F32.add : F32 → F32 → F32
  | .nan, _ => .nan
  | _, .nan => .nan
  | .fin a, .fin b => .fin (a + b)
  | .fin _, .inf s => .inf s
  | .inf s, .fin _ => .inf s
  | .inf s, .inf t => if s = t then .inf s else .nan

/-- IEEE-754 negation on the model. -/
def F32.neg : F32 → F32
  | .nan => .nan
  | .fin a => .fin (-a)
  | .inf s => .inf (!s)

/-- IEEE-754 subtraction on the model, `x - y = x + (-y)`. -/
def F32.sub (a b : F32) : F32 := F32.add a (F32.neg b)

/-- IEEE-754 multiplication on the model: NaN propagates; zero times
infinity is NaN; signs combine. -/
def F32.mul : F32 → F32 → F32
  | .nan, _ => .nan
  | _, .nan => .nan
  | .fin a, .fin b => .fin (a * b)
  | .fin a, .inf s => if a = 0 then .nan else .inf (s == decide (0 < a))
  | .inf s, .fin b => if b = 0 then .nan else .inf (s == decide (0 < b))
  | .inf s, .inf t => .inf (s == t)

/-- IEEE-754 division on the model: NaN propagates; `0 / 0` is NaN;
nonzero finite over zero is a signed infinity; finite over infinity is
zero; infinity over infinity is NaN. -/
def F32.div : F32 → F32 → F32
  | .nan, _ => .nan
  | _, .nan => .nan
  | .fin a, .fin b =>
    if b = 0 then (if a = 0 then .nan else .inf (decide (0 < a)))
    else .fin (a / b)
  | .fin _, .inf _ => .fin 0
  | .inf s, .fin b => if b = 0 then .inf s else .inf (s == decide (0 < b))
  | .inf _, .inf _ => .nan

/-- IEEE-754 square root on the model: NaN for NaN, negative finite
values and negative infinity; exact where numerator and denominator are
perfect squares (the only finite inputs any theorem evaluates it at —
in particular `sqrt 0 = 0`); on other finite inputs the value stands in
for the rounded `f32` result and is never relied upon. -/
def F32.sqrt : F32 → F32
  | .nan => .nan
  | .inf s => if s then .inf true else .nan
  | .fin a =>
    if a < 0 then .nan
    else .fin ((Nat.sqrt a.num.toNat : ℚ) / (Nat.sqrt a.den : ℚ))

instance : Add F32 := ⟨F32.add⟩

instance : Neg F32 := ⟨F32.neg⟩

instance : Sub F32 := ⟨F32.sub⟩

instance : Mul F32 := ⟨F32.mul⟩

instance : Div F32 := ⟨F32.div⟩

instance : Zero F32 := ⟨F32.fin 0⟩

/-- Embedding of the `zero` factory function (`src/vector_3d.rs` lines
62-69): all three components are `T::zero()`. -/
def Vector3d.zero {α : Type} [Zero α] : Vector3d α := ⟨0, 0, 0⟩

/-- Evaluation fact: the component-square sum of the zero vector is the
finite value 0. -/
theorem f32_zero_sumsq : ((0 : F32) * 0 + 0 * 0 + 0 * 0) = F32.fin 0 := by
  show F32.add (F32.add (F32.mul (F32.fin 0) (F32.fin 0))
      (F32.mul (F32.fin 0) (F32.fin 0))) (F32.mul (F32.fin 0) (F32.fin 0)) = F32.fin 0
  norm_num [F32.mul, F32.add]

/-- Evaluation fact: the model square root is exact at zero, as IEEE-754
requires. -/
theorem f32_sqrt_zero : F32.sqrt (F32.fin 0) = F32.fin 0 := by
  norm_num [F32.sqrt, Rat.num_ofNat, Rat.den_ofNat, Nat.sqrt_zero, Nat.sqrt_one]

/-- Evaluation fact: dividing the finite value 0 by itself gives NaN, as
IEEE-754 requires. -/
theorem f32_zero_div_zero : (0 : F32) / F32.fin 0 = F32.nan := by
  show F32.div (F32.fin 0) (F32.fin 0) = F32.nan
  norm_num [F32.div]

/-- C1 counterexample: on the zero vector (magnitude zero), `unit_vector`
does not signal any error — its return type is a plain vector — and the
value it returns is `(NaN, NaN, NaN)`: the silent NaN outcome the claim
rules out. -/
theorem c1_counterexample_unit_vector_zero_nan :
    Vector3d.unit_vector F32.sqrt (Vector3d.zero : Vector3d F32)
      = ⟨F32.nan, F32.nan, F32.nan⟩ := by
  simp only [Vector3d.unit_vector, Vector3d.magnitude, Vector3d.zero,
    f32_zero_sumsq, f32_sqrt_zero, f32_zero_div_zero]

/-- C1 amended: on a zero-magnitude vector, `unit_vector` signals no
domain error (its signature has no error channel at all); it silently
returns the vector `(NaN, NaN, NaN)`, for every sqrt primitive that is
IEEE-correct at zero.  The process does not abort: the `T::from(mag)`
unwrap succeeds at `T = f32`. -/
theorem c1_amended_unit_vector_zero_silent_nan (sqrtf : F32 → F32)
    (h : sqrtf (F32.fin 0) = F32.fin 0) :
    Vector3d.unit_vector sqrtf (Vector3d.zero : Vector3d F32)
      = ⟨F32.nan, F32.nan, F32.nan⟩ := by
  simp only [Vector3d.unit_vector, Vector3d.magnitude, Vector3d.zero,
    f32_zero_sumsq, h, f32_zero_div_zero]

/-- Witness for the amended C1 theorem at the concrete `f32` square-root
model. -/
theorem c1_amended_witness :
    Vector3d.unit_vector F32.sqrt (Vector3d.zero : Vector3d F32)
      = ⟨F32.nan, F32.nan, F32.nan⟩ :=
  c1_amended_unit_vector_zero_silent_nan F32.sqrt f32_sqrt_zero

/-- Result of a Rust operation that can `panic!`: either a normal value
or an unrecoverable process abort.  The crate defines no recoverable
error type anywhere; `panicked` is the only non-`ok` outcome its
operations can produce. -/
inductive PanicOr (α : Type) where
  | ok : α → PanicOr α
  | panicked : PanicOr α
  deriving DecidableEq, Repr

/-- Embedding of `impl Index<u8> for Vector3d` (`src/vector_3d.rs` lines
289-300): indices 0, 1, 2 return the components i, j, k; any other index
executes `panic!("Index out of bounds for Vector: {}", index)`, an
unrecoverable process abort. -/
def Vector3d.index {α : Type} (v : Vector3d α) : Nat → PanicOr α
  | 0 => PanicOr.ok v.i
  | 1 => PanicOr.ok v.j
  | 2 => PanicOr.ok v.k
  | _ => PanicOr.panicked

/-- C4 counterexample: accessing index 3 of `(1, 2, 3)` panics — the
source aborts the process instead of yielding a recoverable
IndexOutOfRange result (the `Index` impl has no error channel). -/
theorem c4_counterexample_index3_panics :
    Vector3d.index (Vector3d.mk (1 : ℚ) 2 3) 3 = PanicOr.panicked := rfl

/-- C4 amended: indices 0, 1, 2 return components i, j, k respectively;
every index outside 0..2 causes a panic (process abort with an
out-of-bounds message), not a recoverable IndexOutOfRange result. -/
theorem c4_amended_index_in_range_else_panic {α : Type} (v : Vector3d α) :
    v.index 0 = PanicOr.ok v.i ∧
    v.index 1 = PanicOr.ok v.j ∧
    v.index 2 = PanicOr.ok v.k ∧
    ∀ n : Nat, 2 < n → v.index n = PanicOr.panicked := by
  refine ⟨rfl, rfl, rfl, ?_⟩
  intro n hn
  match n, hn with
  | n + 3, _ => rfl

/-- Witness for the amended C4 theorem at the vector `(1, 2, 3)` and the
out-of-range index 3. -/
theorem c4_amended_witness :
    Vector3d.index (Vector3d.mk (1 : ℚ) 2 3) 1 = PanicOr.ok 2 ∧
    Vector3d.index (Vector3d.mk (1 : ℚ) 2 3) 3 = PanicOr.panicked :=
  ⟨(c4_amended_index_in_range_else_panic (Vector3d.mk (1 : ℚ) 2 3)).2.1,
   (c4_amended_index_in_range_else_panic (Vector3d.mk (1 : ℚ) 2 3)).2.2.2 3 (by decide)⟩
